import Mathlib

set_option autoImplicit false

/-
  Verification of the order-completion tracking and idempotent dispatch core
  of the us-number-order repository.

  The Python sources are shallowly embedded as pure Lean functions:
  * `zendesk_webhook.py` / `zendesk_webhook`  — the idempotent dispatcher
    (dual lock + persisted `processed` flag), modelled as a sequential step
    function on the `tickets` table (the two locks serialise deliveries, so
    a delivery is one atomic step).
  * `backorder_tracker.py` — the sqlite `backorders` table and its operations
    (`add_backorder`, `update_backorder_status`, `remove_completed_backorder`),
    and the per-order body of `_tracking_loop`.
  * `mcp_integration.py` — `add_numbers_to_inventory`, `block_numbers`,
    `process_completed_order`, `check_order_status` consumers.

  Outbound HTTP results are oracles passed as parameters; each downstream
  request actually issued by the code is recorded in the result so that
  "how many requests, carrying what payload" is provable.
-/

namespace USNumberOrder

/-! ## Idempotent dispatcher: `zendesk_webhook` (zendesk_webhook.py lines 312-402)

The `tickets` table keyed by `ticket_id` with its `processed` column
(`INTEGER DEFAULT 0`).  A webhook delivery, run under the file lock and the
redis lock, is one `webhookStep`.  The guarded domain action
(`handle_user_request`) can report "not a number request" (skip), finish
normally (ok), or raise (raises); this outcome is the delivery's oracle. -/

/-- Outcome of one invocation of the guarded domain action
(`handle_user_request`). -/
inductive ActionOutcome where
  | skip
  | ok
  | raises
deriving DecidableEq

/-- HTTP-level result returned by the webhook handler. -/
inductive WebhookResult where
  | alreadyProcessed
  | ignoredNotRequest
  | success
  | error
deriving DecidableEq

/-- The `tickets` table: association of ticket id to its `processed` flag.
`ticket_id` is UNIQUE; the insert path uses INSERT OR IGNORE so the head
occurrence is the row. -/
abbrev TicketDb := List (Nat × Bool)

/-- SELECT processed FROM tickets WHERE ticket_id = t. -/
def lookupTicket : TicketDb → Nat → Option Bool
  | [], _ => none
  | (k, v) :: rest, t => if k = t then some v else lookupTicket rest t

/-- The dispatcher's duplicate test: row exists and `processed = 1`. -/
def processedBool (db : TicketDb) (t : Nat) : Bool :=
  (lookupTicket db t).getD false

/-- INSERT OR IGNORE INTO tickets (ticket_id, ...) — `processed` defaults to 0. -/
def insertIfAbsent (db : TicketDb) (t : Nat) : TicketDb :=
  match lookupTicket db t with
  | some _ => db
  | none => (t, false) :: db

/-- UPDATE tickets SET processed = 1 WHERE ticket_id = t. -/
def setProcessed : TicketDb → Nat → TicketDb
  | [], _ => []
  | (k, v) :: rest, t =>
    if k = t then (k, true) :: setProcessed rest t
    else (k, v) :: setProcessed rest t

/-- What one delivery did: its HTTP result, whether the guarded domain action
was invoked, and how many outward Zendesk calls (tagging, comments) it made. -/
structure DeliveryLog where
  result : WebhookResult
  executed : Bool
  noteCalls : Nat
deriving DecidableEq

/-- One webhook delivery for ticket `t`, executed under both locks
(zendesk_webhook.py lines 338-392): read `processed`; if set, return
"already processed" untouched; otherwise insert the provisional row, run the
guarded action, and only on normal (non-skip) completion tag the ticket,
persist `processed = 1` and post the comment.  A raise is caught by the outer
handler and returns an error without touching `processed`. -/
def webhookStep (db : TicketDb) (t : Nat) (o : ActionOutcome) :
    TicketDb × DeliveryLog :=
  if processedBool db t then
    (db, { result := .alreadyProcessed, executed := false, noteCalls := 0 })
  else
    let db1 := insertIfAbsent db t
    match o with
    | .skip => (db1, { result := .ignoredNotRequest, executed := true, noteCalls := 0 })
    | .raises => (db1, { result := .error, executed := true, noteCalls := 0 })
    | .ok =>
        (setProcessed db1 t,
          { result := .success, executed := true, noteCalls := 2 })

/-- A sequence of (serialised) deliveries of the same ticket key. -/
def runWebhook (db : TicketDb) (t : Nat) : List ActionOutcome → TicketDb × List DeliveryLog
  | [] => (db, [])
  | o :: os =>
    let r := webhookStep db t o
    let rest := runWebhook r.1 t os
    (rest.1, r.2 :: rest.2)

/-- A delivery on which the guarded action ran to successful completion. -/
def isOkExec (l : DeliveryLog) : Bool :=
  l.executed && decide (l.result = WebhookResult.success)

/-- Number of deliveries in a log that completed the action successfully. -/
def okCount (ls : List DeliveryLog) : Nat :=
  (ls.filter isOkExec).length

theorem processedBool_insertIfAbsent (db : TicketDb) (t : Nat) :
    processedBool (insertIfAbsent db t) t = processedBool db t := by
  cases h : lookupTicket db t <;>
    simp [insertIfAbsent, processedBool, h, lookupTicket]

theorem lookupTicket_setProcessed (db : TicketDb) (t : Nat) :
    lookupTicket (setProcessed db t) t = (lookupTicket db t).map (fun _ => true) := by
  induction db with
  | nil => rfl
  | cons hd tl ih =>
    obtain ⟨k, v⟩ := hd
    by_cases h : k = t
    · subst h
      simp [setProcessed, lookupTicket]
    · simp [setProcessed, lookupTicket, h, ih]

theorem processedBool_after_ok (db : TicketDb) (t : Nat) :
    processedBool (setProcessed (insertIfAbsent db t) t) t = true := by
  rw [processedBool, lookupTicket_setProcessed]
  cases h0 : lookupTicket db t <;> simp [insertIfAbsent, h0, lookupTicket]

theorem runWebhook_processed (db : TicketDb) (t : Nat) (os : List ActionOutcome)
    (h : processedBool db t = true) :
    runWebhook db t os =
      (db, os.map (fun _ =>
        { result := .alreadyProcessed, executed := false, noteCalls := 0 })) := by
  induction os with
  | nil => rfl
  | cons o os ih => simp [runWebhook, webhookStep, h, ih]

theorem okCount_le_one (db : TicketDb) (t : Nat) (os : List ActionOutcome) :
    okCount (runWebhook db t os).2 ≤ 1 := by
  induction os generalizing db with
  | nil => simp [runWebhook, okCount]
  | cons o os ih =>
    by_cases h : processedBool db t = true
    · rw [runWebhook_processed db t (o :: os) h]
      simp [okCount, isOkExec]
    · have h' : processedBool db t = false := by
        cases hb : processedBool db t
        · rfl
        · exact absurd hb h
      cases o with
      | skip =>
        simpa [runWebhook, webhookStep, h', okCount, isOkExec] using
          ih (insertIfAbsent db t)
      | raises =>
        simpa [runWebhook, webhookStep, h', okCount, isOkExec] using
          ih (insertIfAbsent db t)
      | ok =>
        have hp := processedBool_after_ok db t
        simp [runWebhook, webhookStep, h', okCount, isOkExec,
          runWebhook_processed _ t os hp]

/-- C1 — For every ticket key, the dispatcher is at-most-once: (a) a delivery
that finds `processed = 1` returns "already processed", does not invoke the
guarded action, makes no outward calls and leaves the table untouched; (b) if
the guarded action raises, `processed` stays unset; (c) `processed` can flip
to set only through a delivery whose action completed normally; (d) across any
sequence of redeliveries, at most one delivery completes the action with
`processed` persisted. -/
theorem C1_processed_flag_at_most_once (db : TicketDb) (t : Nat)
    (o : ActionOutcome) (os : List ActionOutcome) :
    (processedBool db t = true →
      webhookStep db t o =
        (db, { result := .alreadyProcessed, executed := false, noteCalls := 0 })) ∧
    (processedBool db t = false →
      processedBool (webhookStep db t .raises).1 t = false) ∧
    (processedBool db t = false → processedBool (webhookStep db t o).1 t = true →
      o = .ok) ∧
    okCount (runWebhook db t os).2 ≤ 1 := by
  refine ⟨fun h => by simp [webhookStep, h], fun h => ?_, fun h h2 => ?_, okCount_le_one db t os⟩
  · simp [webhookStep, h, processedBool_insertIfAbsent]
  · cases o with
    | ok => rfl
    | skip => simp [webhookStep, h, processedBool_insertIfAbsent] at h2
    | raises => simp [webhookStep, h, processedBool_insertIfAbsent] at h2

theorem C1_processed_flag_at_most_once_witness :
    webhookStep [(5, true)] 5 .ok =
      ([(5, true)], { result := .alreadyProcessed, executed := false, noteCalls := 0 }) ∧
    okCount (runWebhook [] 7 [.raises, .ok, .ok, .skip]).2 ≤ 1 :=
  ⟨(C1_processed_flag_at_most_once [(5, true)] 5 .ok []).1 (by decide),
   (C1_processed_flag_at_most_once [] 7 .ok [.raises, .ok, .ok, .skip]).2.2.2⟩

/-- C10 — A skip outcome ("not a number request") returns success without
persisting `processed`, so a redelivery of the same key runs the guarded
action again in full. -/
theorem C10_skip_does_not_persist (db : TicketDb) (t : Nat) (o : ActionOutcome)
    (h : processedBool db t = false) :
    (webhookStep db t .skip).2.result = .ignoredNotRequest ∧
    (webhookStep db t .skip).2.executed = true ∧
    processedBool (webhookStep db t .skip).1 t = false ∧
    (webhookStep (webhookStep db t .skip).1 t o).2.executed = true := by
  have h1 : processedBool (insertIfAbsent db t) t = false := by
    simpa [processedBool_insertIfAbsent] using h
  refine ⟨by simp [webhookStep, h], by simp [webhookStep, h], ?_, ?_⟩
  · simp [webhookStep, h, h1]
  · cases o <;> simp [webhookStep, h, h1]

theorem C10_skip_does_not_persist_witness :
    (webhookStep [] 9 .skip).2.result = .ignoredNotRequest ∧
    (webhookStep (webhookStep [] 9 .skip).1 9 .ok).2.executed = true :=
  ⟨(C10_skip_does_not_persist [] 9 .ok (by decide)).1,
   (C10_skip_does_not_persist [] 9 .ok (by decide)).2.2.2⟩

/-! ## Persistent order store: the `backorders` table (backorder_tracker.py)

One row per `order_id` (TEXT PRIMARY KEY).  `add_backorder` uses
INSERT OR REPLACE (lines 126-154): a re-add of an existing id replaces the
whole row, writing status "pending" and leaving `completion_date` NULL.
`update_backorder_status` (lines 156-177) is UPDATE ... WHERE order_id,
writing the given status, the current time and the given completion date.
`remove_completed_backorder` (lines 480-495) is DELETE ... WHERE order_id. -/

/-- A row of the `backorders` table. -/
structure OrderRow where
  area_code : String
  quantity : Nat
  ticket_id : Option String
  status : String
  created_at : Nat
  updated_at : Nat
  completion_date : Option Nat
deriving DecidableEq

/-- The `backorders` table; the PRIMARY KEY makes the head occurrence of a
key the row (insertion removes any previous occurrence). -/
abbrev OrderDb := List (String × OrderRow)

/-- SELECT ... FROM backorders WHERE order_id = oid. -/
def lookupOrder : OrderDb → String → Option OrderRow
  | [], _ => none
  | (k, r) :: rest, oid => if k = oid then some r else lookupOrder rest oid

/-- DELETE FROM backorders WHERE order_id = oid. -/
def eraseOrder : OrderDb → String → OrderDb
  | [], _ => []
  | (k, r) :: rest, oid =>
    if k = oid then eraseOrder rest oid else (k, r) :: eraseOrder rest oid

/-- `add_backorder`: INSERT OR REPLACE with status "pending"; the column
list omits `completion_date`, so REPLACE leaves it NULL. -/
def add_backorder (db : OrderDb) (oid ac : String) (q : Nat)
    (tid : Option String) (now : Nat) : OrderDb :=
  (oid, { area_code := ac, quantity := q, ticket_id := tid, status := "pending",
          created_at := now, updated_at := now, completion_date := none }) ::
    eraseOrder db oid

/-- `update_backorder_status`: UPDATE backorders SET status, updated_at,
completion_date WHERE order_id = oid (no-op if the row is absent). -/
def update_backorder_status : OrderDb → String → String → Option Nat → Nat → OrderDb
  | [], _, _, _, _ => []
  | (k, r) :: rest, oid, status, cd, now =>
    if k = oid then
      (k, { r with status := status, updated_at := now, completion_date := cd }) ::
        update_backorder_status rest oid status cd now
    else (k, r) :: update_backorder_status rest oid status cd now

/-- `remove_completed_backorder`. -/
def remove_completed_backorder (db : OrderDb) (oid : String) : OrderDb :=
  eraseOrder db oid

/-- The stored status of an order, if its row exists. -/
def statusOf (db : OrderDb) (oid : String) : Option String :=
  (lookupOrder db oid).map (fun r => r.status)

/-- The store operations the repository performs on the `backorders` table. -/
inductive StoreOp where
  | add (oid ac : String) (q : Nat) (tid : Option String) (now : Nat)
  | updateStatus (oid status : String) (cd : Option Nat) (now : Nat)
  | remove (oid : String)

def applyOp (db : OrderDb) : StoreOp → OrderDb
  | .add oid ac q tid now => add_backorder db oid ac q tid now
  | .updateStatus oid status cd now => update_backorder_status db oid status cd now
  | .remove oid => remove_completed_backorder db oid

def applyOps (db : OrderDb) : List StoreOp → OrderDb
  | [] => db
  | op :: ops => applyOps (applyOp db op) ops

theorem lookupOrder_eraseOrder (db : OrderDb) (k oid : String) (h : k ≠ oid) :
    lookupOrder (eraseOrder db k) oid = lookupOrder db oid := by
  induction db with
  | nil => rfl
  | cons hd tl ih =>
    obtain ⟨k2, r⟩ := hd
    by_cases h2 : k2 = k
    · subst h2
      simp [eraseOrder, lookupOrder, h, ih]
    · by_cases h3 : k2 = oid
      · subst h3
        simp [eraseOrder, lookupOrder, h2, lookupOrder, Ne.symm h]
      · simp [eraseOrder, lookupOrder, h2, h3, ih]

theorem lookupOrder_update (db : OrderDb) (oid status : String)
    (cd : Option Nat) (now : Nat) (oid2 : String) :
    lookupOrder (update_backorder_status db oid status cd now) oid2 =
      if oid2 = oid then
        (lookupOrder db oid2).map
          (fun r => { r with status := status, updated_at := now, completion_date := cd })
      else lookupOrder db oid2 := by
  induction db with
  | nil => simp [update_backorder_status, lookupOrder]
  | cons hd tl ih =>
    obtain ⟨k, r⟩ := hd
    by_cases h : k = oid
    · subst h
      by_cases h2 : k = oid2
      · subst h2
        simp [update_backorder_status, lookupOrder]
      · have h3 : ¬oid2 = k := fun hh => h2 hh.symm
        simp [update_backorder_status, lookupOrder, h2, ih, h3]
    · by_cases h2 : k = oid2
      · subst h2
        have h3 : ¬k = oid := h
        simp [update_backorder_status, lookupOrder, h3,
          fun hh : k = oid => h hh]
      · simp [update_backorder_status, lookupOrder, h, h2, ih]

/-- Which store operations leave a completed row for `oid` alone: adds and
removes of other ids, and status updates that (when touching `oid`) write
the terminal status the tracker writes. -/
def preservesCompleted (oid : String) : StoreOp → Prop
  | .add oid2 _ _ _ _ => oid2 ≠ oid
  | .updateStatus oid2 status _ _ => oid2 = oid → status = "completed"
  | .remove oid2 => oid2 ≠ oid

theorem statusOf_applyOp_preserved (db : OrderDb) (oid : String) (op : StoreOp)
    (hop : preservesCompleted oid op) (h : statusOf db oid = some "completed") :
    statusOf (applyOp db op) oid = some "completed" := by
  cases op with
  | add oid2 ac q tid now =>
    have hne : oid2 ≠ oid := hop
    simp only [applyOp, add_backorder, statusOf, lookupOrder, if_neg hne]
    rw [lookupOrder_eraseOrder db oid2 oid hne]
    exact h
  | updateStatus oid2 status cd now =>
    simp only [applyOp, statusOf, lookupOrder_update]
    by_cases h2 : oid = oid2
    · have hst : status = "completed" := hop h2.symm
      simp only [if_pos h2]
      simp only [statusOf] at h
      cases hl : lookupOrder db oid with
      | none => rw [hl] at h; simp at h
      | some r => simp [hst]
    · simp only [if_neg h2]
      exact h
  | remove oid2 =>
    have hne : oid2 ≠ oid := hop
    simp only [applyOp, remove_completed_backorder, statusOf]
    rw [lookupOrder_eraseOrder db oid2 oid hne]
    exact h

/-- C4 counterexample — the claim fails: `add_backorder` is INSERT OR
REPLACE with status "pending", so re-adding an order id whose row is already
Completed resets the row to Pending. -/
theorem C4_counterexample :
    statusOf
      (update_backorder_status
        (add_backorder [] "ORD1" "212" 5 (some "T1") 0)
        "ORD1" "completed" (some 10) 10) "ORD1" = some "completed" ∧
    statusOf
      (add_backorder
        (update_backorder_status
          (add_backorder [] "ORD1" "212" 5 (some "T1") 0)
          "ORD1" "completed" (some 10) 10)
        "ORD1" "212" 5 (some "T1") 20) "ORD1" = some "pending" := by
  constructor <;> rfl

/-- C4 as amended — a stored status of "completed" persists under any
sequence of store operations that re-add or delete only other order ids and
whose status updates on this id write "completed" (the only terminal status
the tracker writes); re-adding the same order id is excluded, because
INSERT OR REPLACE resets the row to "pending". -/
theorem C4_amended_monotone_without_readd (db : OrderDb) (oid : String)
    (ops : List StoreOp) (h : statusOf db oid = some "completed")
    (hops : ∀ op ∈ ops, preservesCompleted oid op) :
    statusOf (applyOps db ops) oid = some "completed" := by
  induction ops generalizing db with
  | nil => exact h
  | cons op ops ih =>
    exact ih (applyOp db op)
      (statusOf_applyOp_preserved db oid op (hops op (by simp)) h)
      (fun o ho => hops o (by simp [ho]))

theorem C4_amended_monotone_without_readd_witness :
    statusOf
      (applyOps [("A", { area_code := "212", quantity := 2, ticket_id := none,
                         status := "completed", created_at := 0, updated_at := 0,
                         completion_date := some 5 })]
        [.updateStatus "A" "completed" (some 9) 9, .add "B" "415" 1 none 9,
         .remove "B"]) "A" = some "completed" :=
  C4_amended_monotone_without_readd _ "A" _ (by rfl)
    (by
      intro op hop
      fin_cases hop <;> simp [preservesCompleted])

/-! ## MCP inventory client (mcp_integration.py)

`add_numbers_to_inventory` (lines 106-207) builds ONE payload containing
every handed-in number and performs a single `requests.post`; its success is
the HTTP outcome, an oracle here.  `block_numbers` (lines 209-320) loops and
performs one post per number.  Neither function keeps any call-history state:
there is no circuit-breaker structure anywhere in the module, so every call
issues its downstream request.  Each element of `requests` below records the
list of (normalised) numbers carried by one downstream HTTP request. -/

/-- Number normalisation done by both MCP entry points: drop a leading "+",
then ensure a leading "1" (the Python startswith / slicing / concatenation
are expressed on the character list so the kernel can evaluate them). -/
def mcpFormat (s : String) : String :=
  let s1 := match s.data with
    | '+' :: rest => String.mk rest
    | _ => s
  match s1.data with
  | '1' :: _ => s1
  | _ => String.mk ('1' :: s1.data)

/-- `add_numbers_to_inventory`: one request carrying all numbers; the call
succeeds exactly when the HTTP post does.  It is issued unconditionally —
the module holds no breaker state that could fail fast. -/
def add_numbers_to_inventory (numbers : List String) (httpOk : Bool) :
    Bool × List (List String) :=
  (httpOk, [numbers.map mcpFormat])

/-- Result of `block_numbers`. -/
structure BlockResult where
  success : Bool
  successful_blocks : List String
  failed_blocks : List String
  requests : List (List String)
deriving DecidableEq

/-- `block_numbers`: one request per number, sequentially, each carrying a
single number; per-number success is the oracle `blockOk`; overall success
means at least one number was blocked. -/
def block_numbers (numbers : List String) (blockOk : String → Bool) : BlockResult :=
  { success := !(numbers.filter blockOk).isEmpty
    successful_blocks := numbers.filter blockOk
    failed_blocks := numbers.filter (fun n => !blockOk n)
    requests := numbers.map (fun n => [mcpFormat n]) }

/-- A sequence of registrar calls with the same payload, one per downstream
outcome in `outs` (used to examine the absence of any breaker behaviour). -/
def registerTrace (numbers : List String) (outs : List Bool) :
    List (Bool × List (List String)) :=
  outs.map (fun ok => add_numbers_to_inventory numbers ok)

/-- Result of `process_completed_order` (mcp_integration.py lines 426-540).
`ordersPlaced` records invocations of the order-placement collaborator
(`place_inteliquent_backorder` / `add_backorder`): the function's body
contains none, so it is empty in every branch. -/
structure PipelineResult where
  successful_additions : List String
  failed_additions : List String
  successful_blocks : List String
  failed_blocks : List String
  addRequests : List (List String)
  blockRequests : List (List String)
  ordersPlaced : List (String × Nat × Option String)
deriving DecidableEq

/-- `process_completed_order`: for each completed number, in order, one
`add_numbers_to_inventory` call with the single number (its request is issued
whether or not it succeeds), and — only after a successful addition — one
`block_numbers` call with that single number. -/
def process_completed_order (nums : List String) (addOk blockOk : String → Bool) :
    PipelineResult :=
  match nums with
  | [] =>
    { successful_additions := [], failed_additions := [],
      successful_blocks := [], failed_blocks := [],
      addRequests := [], blockRequests := [], ordersPlaced := [] }
  | n :: rest =>
    let tail := process_completed_order rest addOk blockOk
    if addOk n then
      let br := block_numbers [n] blockOk
      { successful_additions := n :: tail.successful_additions
        failed_additions := tail.failed_additions
        successful_blocks := br.successful_blocks ++ tail.successful_blocks
        failed_blocks := br.failed_blocks ++ tail.failed_blocks
        addRequests := [mcpFormat n] :: tail.addRequests
        blockRequests := br.requests ++ tail.blockRequests
        ordersPlaced := tail.ordersPlaced }
    else
      { successful_additions := tail.successful_additions
        failed_additions := n :: tail.failed_additions
        successful_blocks := tail.successful_blocks
        failed_blocks := tail.failed_blocks
        addRequests := [mcpFormat n] :: tail.addRequests
        blockRequests := tail.blockRequests
        ordersPlaced := tail.ordersPlaced }

/-- The number formatting done in `add_numbers_to_inventory_via_mcp`
(main.py lines 183-202) before handing numbers to the MCP client. -/
def plusFormat (tn : String) : String :=
  match tn.data with
  | '+' :: _ => tn
  | _ =>
    if tn.data.length = 10 then String.mk ('+' :: '1' :: tn.data)
    else String.mk ('+' :: tn.data)

/-- `add_numbers_to_inventory_via_mcp` (main.py lines 167-300): formats every
ordered number and, when any remain, performs ONE `add_numbers_to_inventory`
call carrying the whole list. -/
def add_numbers_to_inventory_via_mcp (tns : List String) (httpOk : Bool) :
    Bool × List (List String) :=
  let fmt := tns.map plusFormat
  if fmt.isEmpty then (false, [])
  else add_numbers_to_inventory fmt httpOk

theorem addRequests_process_completed_order (nums : List String)
    (addOk blockOk : String → Bool) :
    (process_completed_order nums addOk blockOk).addRequests =
      nums.map (fun n => [mcpFormat n]) := by
  induction nums with
  | nil => rfl
  | cons n rest ih =>
    by_cases h : addOk n <;> simp [process_completed_order, h, ih]

theorem ordersPlaced_process_completed_order (nums : List String)
    (addOk blockOk : String → Bool) :
    (process_completed_order nums addOk blockOk).ordersPlaced = [] := by
  induction nums with
  | nil => rfl
  | cons n rest ih =>
    by_cases h : addOk n <;> simp [process_completed_order, h, ih]

theorem successful_additions_process_completed_order (nums : List String)
    (addOk blockOk : String → Bool) :
    (process_completed_order nums addOk blockOk).successful_additions =
      nums.filter addOk := by
  induction nums with
  | nil => rfl
  | cons n rest ih =>
    by_cases h : addOk n <;> simp [process_completed_order, h, ih, List.filter]

/-- C3 — the registrar operations are not guarded by any circuit breaker:
`add_numbers_to_inventory` issues its downstream request on every single
call, whatever happened on earlier calls, and `block_numbers` issues one
request per number on every call; in particular, on the trace of a 4th
register call made immediately after 3 consecutive downstream failures, the
4th call still performs a downstream request instead of failing fast. -/
theorem C3_no_circuit_breaker :
    (∀ (numbers : List String) (httpOk : Bool),
      (add_numbers_to_inventory numbers httpOk).2.length = 1) ∧
    (∀ (numbers : List String) (blockOk : String → Bool),
      (block_numbers numbers blockOk).requests.length = numbers.length) ∧
    (registerTrace ["+12125550001"] [false, false, false, true]).map
        (fun r => r.2.length) = [1, 1, 1, 1] := by
  refine ⟨fun numbers httpOk => rfl, fun numbers blockOk => ?_, rfl⟩
  simp [block_numbers]

/-- C6 counterexample — the claim fails: the immediate-order path
(`add_numbers_to_inventory_via_mcp`) batches the whole order into a single
downstream registration request; with two ordered numbers the one request
carries two units, so registration requests do not always carry exactly one
unit. -/
theorem C6_counterexample :
    (add_numbers_to_inventory_via_mcp ["2125550001", "2125550002"] true).2 =
      [["12125550001", "12125550002"]] ∧
    ¬ (∀ r ∈ (add_numbers_to_inventory_via_mcp
        ["2125550001", "2125550002"] true).2, r.length = 1) := by
  constructor
  · rfl
  · intro h
    exact absurd (h ["12125550001", "12125550002"] (by decide)) (by decide)

/-- C6 as amended — the completion pipeline and the block client send one
unit per downstream request, sequentially in unit order (one add request per
fulfilled unit, one block request per number), but the immediate-order path
batches all ordered units into a single add-to-inventory request. -/
theorem C6_amended_one_unit_per_pipeline_request
    (nums : List String) (addOk blockOk : String → Bool)
    (tns : List String) (httpOk : Bool) (h : tns ≠ []) :
    (process_completed_order nums addOk blockOk).addRequests =
      nums.map (fun n => [mcpFormat n]) ∧
    (∀ r ∈ (process_completed_order nums addOk blockOk).addRequests,
      r.length = 1) ∧
    (block_numbers nums blockOk).requests = nums.map (fun n => [mcpFormat n]) ∧
    (add_numbers_to_inventory_via_mcp tns httpOk).2 =
      [tns.map (fun n => mcpFormat (plusFormat n))] := by
  refine ⟨addRequests_process_completed_order nums addOk blockOk, ?_, rfl, ?_⟩
  · intro r hr
    rw [addRequests_process_completed_order] at hr
    simp only [List.mem_map] at hr
    obtain ⟨n, _, hn⟩ := hr
    simp [← hn]
  · have h2 : ¬(tns.map plusFormat).isEmpty := by
      cases tns with
      | nil => exact absurd rfl h
      | cons a l => simp
    simp [add_numbers_to_inventory_via_mcp, h2, add_numbers_to_inventory]

theorem C6_amended_one_unit_per_pipeline_request_witness :
    (process_completed_order ["+12125550001"] (fun _ => true) (fun _ => true)).addRequests =
      [["12125550001"]] ∧
    (add_numbers_to_inventory_via_mcp ["2125550001"] true).2 = [["12125550001"]] := by
  have h := C6_amended_one_unit_per_pipeline_request ["+12125550001"]
    (fun _ => true) (fun _ => true) ["2125550001"] true (by decide)
  exact ⟨h.1, h.2.2.2⟩

/-! ## Remote status and the tracking loop (backorder_tracker.py)

`check_order_status` returns either an error or the `orderDetailResponse`
payload; a tick of `_tracking_loop` may call it up to three times per order
(directly, inside `check_backorder_completion`, and inside
`process_completed_backorder`), so the oracle `api` is indexed by the call
number within the order's processing.  Zendesk comment postings are recorded
as note tags, one per `post_zendesk_comment` invocation. -/

/-- The `orderDetailResponse` payload: remote status, the `tnList.tnItem`
entries as (tn, tnStatus) pairs, and `desiredDueDate`. -/
structure OrderDetail where
  orderStatus : String
  tnItems : List (String × String)
  desiredDueDate : Option Nat
deriving DecidableEq

/-- A `check_order_status` outcome: an error entry or the detail payload. -/
abbrev ApiResult := Except String OrderDetail

/-- The in-memory record handed to the loop body: a row of
`get_pending_backorders` plus the loop-local `last_status` field (set to
None by `get_pending_backorders`). -/
structure BackorderRecord where
  order_id : String
  area_code : String
  quantity : Nat
  ticket_id : Option String
  status : String
  created_at : Nat
  updated_at : Nat
  completion_date : Option Nat
  last_status : Option String
deriving DecidableEq

/-- Numbers whose `tnStatus` is "Complete" in the detail payload. -/
def completedNumbers (d : OrderDetail) : List String :=
  (d.tnItems.filter (fun i => i.2 = "Complete")).map (fun i => i.1)

/-- `check_backorder_completion` (lines 329-366): true exactly when the call
succeeds and the remote status is "Closed" (also when no numbers completed). -/
def check_backorder_completion (r : ApiResult) : Bool :=
  match r with
  | .error _ => false
  | .ok d => d.orderStatus = "Closed"

/-- `is_backorder_completed` (lines 628-645): the stored status is
"completed". -/
def is_backorder_completed (db : OrderDb) (oid : String) : Bool :=
  match lookupOrder db oid with
  | some r => r.status = "completed"
  | none => false

/-- Result of `process_completed_backorder`. -/
structure ProcResult where
  db : OrderDb
  notes : List String
  ret : Bool
  ordersPlaced : List (String × Nat × Option String)
  pipeline : Option PipelineResult
deriving DecidableEq

/-- `process_completed_backorder` (lines 368-458): re-fetch the status; bail
out on error, non-"Closed" status, or no completed numbers; otherwise mark
the row "completed" with completion date now, run `process_completed_order`,
and post — when a ticket is attached — the MCP status note plus, when at
least one addition succeeded, the backorder-completion ticket update. -/
def process_completed_backorder (db : OrderDb) (b : BackorderRecord)
    (r : ApiResult) (addOk blockOk : String → Bool) (now : Nat) : ProcResult :=
  match r with
  | .error _ => ⟨db, [], false, [], none⟩
  | .ok d =>
    if d.orderStatus = "Closed" then
      let nums := completedNumbers d
      if nums.isEmpty then ⟨db, [], false, [], none⟩
      else
        let db1 := update_backorder_status db b.order_id "completed" (some now) now
        let pres := process_completed_order nums addOk blockOk
        let notes :=
          if b.ticket_id.isSome then
            if pres.successful_additions.isEmpty then ["mcp_status"]
            else ["mcp_status", "ticket_update"]
          else []
        ⟨db1, notes, true, pres.ordersPlaced, some pres⟩
    else ⟨db, [], false, [], none⟩

/-- The loop-local `last_status_updates` dict: order id to the time of the
last status note. -/
abbrev NotifyMap := List (String × Nat)

def lookupNotify : NotifyMap → String → Option Nat
  | [], _ => none
  | (k, v) :: rest, oid => if k = oid then some v else lookupNotify rest oid

def setNotify (m : NotifyMap) (oid : String) (t : Nat) : NotifyMap :=
  (oid, t) :: m.filter (fun p => !(p.1 = oid : Bool))

def eraseNotify (m : NotifyMap) (oid : String) : NotifyMap :=
  m.filter (fun p => !(p.1 = oid : Bool))

/-- What one order's processing inside one tick produced. -/
structure TickStepResult where
  db : OrderDb
  lastUpdates : NotifyMap
  notes : List String
  removed : Bool
  ordersPlaced : List (String × Nat × Option String)
deriving DecidableEq

/-- The body of `_tracking_loop` for one pending backorder (lines 532-615):
on API error nothing happens; otherwise a completion note is posted when the
observed status changed to "Closed"; a "Closed" status triggers the
completion path (second status fetch, `process_completed_backorder`, timer
clearing, row deletion); a non-"Closed" status falls through to the 4-hour
cadence check unless the stored row is already completed. -/
def tickStep (db : OrderDb) (lu : NotifyMap) (b : BackorderRecord)
    (api : Nat → ApiResult) (addOk blockOk : String → Bool) (now : Nat) :
    TickStepResult :=
  match api 0 with
  | .error _ => ⟨db, lu, [], false, []⟩
  | .ok d =>
    let current := d.orderStatus
    let changed : Bool := !(b.last_status = some current : Bool)
    let completionNote := if changed && (current = "Closed" : Bool)
      then ["completion_note"] else []
    if current = "Closed" then
      if check_backorder_completion (api 1) then
        let pr := process_completed_backorder db b (api 2) addOk blockOk now
        ⟨remove_completed_backorder pr.db b.order_id, eraseNotify lu b.order_id,
          completionNote ++ pr.notes, true, pr.ordersPlaced⟩
      else
        let db1 := update_backorder_status db b.order_id "completed" (some now) now
        ⟨remove_completed_backorder db1 b.order_id, eraseNotify lu b.order_id,
          completionNote, true, []⟩
    else
      if is_backorder_completed db b.order_id then
        ⟨db, lu, completionNote, false, []⟩
      else
        let shouldNotify : Bool :=
          match lookupNotify lu b.order_id with
          | none => true
          | some l => decide (14400 ≤ now - l)
        if shouldNotify then
          ⟨db, setNotify lu b.order_id now, completionNote ++ ["status_update"],
            false, []⟩
        else ⟨db, lu, completionNote, false, []⟩

theorem lookupOrder_eraseOrder_self (db : OrderDb) (k : String) :
    lookupOrder (eraseOrder db k) k = none := by
  induction db with
  | nil => rfl
  | cons hd tl ih =>
    obtain ⟨k2, r⟩ := hd
    by_cases h : k2 = k
    · simp [eraseOrder, h, ih]
    · simp [eraseOrder, lookupOrder, h, ih]

theorem lookupNotify_setNotify_self (m : NotifyMap) (k : String) (t : Nat) :
    lookupNotify (setNotify m k t) k = some t := by
  simp [setNotify, lookupNotify]

theorem process_completed_backorder_run_eq (db : OrderDb) (b : BackorderRecord)
    (d : OrderDetail) (addOk blockOk : String → Bool) (now : Nat)
    (h1 : d.orderStatus = "Closed")
    (hni : (completedNumbers d).isEmpty = false) :
    process_completed_backorder db b (Except.ok d) addOk blockOk now =
      { db := update_backorder_status db b.order_id "completed" (some now) now
        notes :=
          if b.ticket_id.isSome then
            if (process_completed_order (completedNumbers d) addOk
                blockOk).successful_additions.isEmpty then ["mcp_status"]
            else ["mcp_status", "ticket_update"]
          else []
        ret := true
        ordersPlaced :=
          (process_completed_order (completedNumbers d) addOk blockOk).ordersPlaced
        pipeline :=
          some (process_completed_order (completedNumbers d) addOk blockOk) } := by
  simp [process_completed_backorder, h1, hni]

theorem statusOf_process_completed_backorder (db : OrderDb)
    (b : BackorderRecord) (r : ApiResult) (addOk blockOk : String → Bool)
    (now : Nat) (oid : String) :
    statusOf (process_completed_backorder db b r addOk blockOk now).db oid =
        statusOf db oid ∨
      statusOf (process_completed_backorder db b r addOk blockOk now).db oid =
        some "completed" := by
  cases r with
  | error e => exact Or.inl rfl
  | ok d =>
    by_cases h1 : d.orderStatus = "Closed"
    · by_cases h2 : (completedNumbers d).isEmpty
      · simp [process_completed_backorder, h1, h2]
      · simp only [process_completed_backorder, h1, if_pos, h2, if_true,
          Bool.false_eq_true, if_false, if_neg]
        simp only [statusOf, lookupOrder_update]
        by_cases h3 : oid = b.order_id
        · simp only [if_pos h3]
          cases lookupOrder db oid with
          | none => exact Or.inl (by simp [statusOf, h3])
          | some r2 => exact Or.inr (by simp)
        · simp [if_neg h3, statusOf]
    · simp [process_completed_backorder, h1]

theorem statusOf_tickStep (db : OrderDb) (lu : NotifyMap) (b : BackorderRecord)
    (api : Nat → ApiResult) (addOk blockOk : String → Bool) (now : Nat)
    (oid : String) :
    statusOf (tickStep db lu b api addOk blockOk now).db oid = statusOf db oid ∨
    statusOf (tickStep db lu b api addOk blockOk now).db oid = some "completed" ∨
    statusOf (tickStep db lu b api addOk blockOk now).db oid = none := by
  cases h0 : api 0 with
  | error e => exact Or.inl (by simp [tickStep, h0])
  | ok d =>
    by_cases h1 : d.orderStatus = "Closed"
    · by_cases h2 : check_backorder_completion (api 1)
      · simp only [tickStep, h0, h1, if_pos, h2, if_true]
        by_cases h3 : oid = b.order_id
        · subst h3
          exact Or.inr (Or.inr (by
            simp [remove_completed_backorder, statusOf, lookupOrder_eraseOrder_self]))
        · have hne : b.order_id ≠ oid := fun hh => h3 hh.symm
          simp only [remove_completed_backorder, statusOf,
            lookupOrder_eraseOrder _ _ _ hne]
          rcases statusOf_process_completed_backorder db b (api 2) addOk blockOk now oid with h | h
          · exact Or.inl (by simpa [statusOf] using h)
          · exact Or.inr (Or.inl (by simpa [statusOf] using h))
      · simp only [tickStep, h0, h1, if_pos, h2, Bool.false_eq_true, if_false]
        by_cases h3 : oid = b.order_id
        · subst h3
          exact Or.inr (Or.inr (by
            simp [remove_completed_backorder, statusOf, lookupOrder_eraseOrder_self]))
        · have hne : b.order_id ≠ oid := fun hh => h3 hh.symm
          simp only [remove_completed_backorder, statusOf,
            lookupOrder_eraseOrder _ _ _ hne, lookupOrder_update]
          simp [if_neg h3, statusOf]
    · by_cases h2 : is_backorder_completed db b.order_id
      · exact Or.inl (by simp [tickStep, h0, h1, h2])
      · by_cases h3 : (match lookupNotify lu b.order_id with
          | none => true
          | some l => decide (14400 ≤ now - l)) = true
        · exact Or.inl (by simp [tickStep, h0, h1, h2, h3])
        · exact Or.inl (by simp [tickStep, h0, h1, h2, h3])

/-! ## Concrete fixtures used by the scenario theorems -/

def sampleRow : OrderRow :=
  { area_code := "212", quantity := 5, ticket_id := some "T1",
    status := "pending", created_at := 0, updated_at := 0, completion_date := none }

def sampleDb : OrderDb := [("ORD1", sampleRow)]

def sampleRecord : BackorderRecord :=
  { order_id := "ORD1", area_code := "212", quantity := 5,
    ticket_id := some "T1", status := "pending", created_at := 0,
    updated_at := 0, completion_date := none, last_status := none }

/-- A terminal payload: status "Closed" with three completed numbers (fewer
than the requested quantity 5 of `sampleRecord`). -/
def closedDetail : OrderDetail :=
  { orderStatus := "Closed",
    tnItems := [("+12125550001", "Complete"), ("+12125550002", "Complete"),
      ("+12125550003", "Complete")],
    desiredDueDate := none }

/-- A still-pending payload whose desired due date (100) lies in the past of
the poll at time 200. -/
def pendingDetail : OrderDetail :=
  { orderStatus := "Pending", tnItems := [], desiredDueDate := some 100 }

def allOk : String → Bool := fun _ => true

/-- C2 counterexample — the claim fails: on a terminal order with 3 fulfilled
units against a requested quantity of 5, the completion path registers the
units and marks the order completed, but places zero new tracked orders —
not exactly one — for the shortfall. -/
theorem C2_counterexample :
    (completedNumbers closedDetail).length = 3 ∧
    sampleRecord.quantity = 5 ∧
    (process_completed_backorder sampleDb sampleRecord (Except.ok closedDetail)
      allOk allOk 50).ret = true ∧
    statusOf (process_completed_backorder sampleDb sampleRecord
      (Except.ok closedDetail) allOk allOk 50).db "ORD1" = some "completed" ∧
    (process_completed_backorder sampleDb sampleRecord (Except.ok closedDetail)
      allOk allOk 50).ordersPlaced.length = 0 ∧
    (process_completed_backorder sampleDb sampleRecord (Except.ok closedDetail)
      allOk allOk 50).ordersPlaced.length ≠ 1 := by
  refine ⟨rfl, rfl, rfl, rfl, rfl, by decide⟩

/-- C2 as amended — when the completion path runs on a terminal order it
registers the fulfilled units (each through its own call) and marks the
order's row completed, but it invokes no order placement at all: the
shortfall between fulfilled units and requested quantity is dropped, and no
new Pending tracked order is created. -/
theorem C2_amended_no_shortfall_reissue (db : OrderDb) (b : BackorderRecord)
    (d : OrderDetail) (addOk blockOk : String → Bool) (now : Nat)
    (h1 : d.orderStatus = "Closed") (h2 : completedNumbers d ≠ [])
    (h3 : (lookupOrder db b.order_id).isSome = true) :
    (process_completed_backorder db b (Except.ok d) addOk blockOk now).ret = true ∧
    statusOf (process_completed_backorder db b (Except.ok d) addOk blockOk now).db
      b.order_id = some "completed" ∧
    (process_completed_backorder db b (Except.ok d) addOk blockOk now).pipeline =
      some (process_completed_order (completedNumbers d) addOk blockOk) ∧
    (process_completed_order (completedNumbers d) addOk blockOk).successful_additions =
      (completedNumbers d).filter addOk ∧
    (process_completed_backorder db b (Except.ok d) addOk blockOk now).ordersPlaced =
      [] := by
  have hni : (completedNumbers d).isEmpty = false := by
    cases hcn : completedNumbers d with
    | nil => exact absurd hcn h2
    | cons a l => rfl
  rw [process_completed_backorder_run_eq db b d addOk blockOk now h1 hni]
  refine ⟨rfl, ?_, rfl,
    successful_additions_process_completed_order _ addOk blockOk,
    ordersPlaced_process_completed_order _ addOk blockOk⟩
  simp only [statusOf, lookupOrder_update, if_pos rfl]
  cases hl : lookupOrder db b.order_id with
  | none => rw [hl] at h3; simp at h3
  | some r => simp

theorem C2_amended_no_shortfall_reissue_witness :
    (process_completed_backorder sampleDb sampleRecord (Except.ok closedDetail)
      allOk allOk 50).ordersPlaced = [] ∧
    statusOf (process_completed_backorder sampleDb sampleRecord
      (Except.ok closedDetail) allOk allOk 50).db "ORD1" = some "completed" := by
  have h := C2_amended_no_shortfall_reissue sampleDb sampleRecord closedDetail
    allOk allOk 50 rfl (by decide) rfl
  exact ⟨h.2.2.2.2, h.2.1⟩

/-- C5 counterexample — the claim fails: on a completion observed as a status
change to "Closed" with fulfilled numbers, an attached ticket and successful
registrations, the tick posts three Zendesk notes (the completion note, the
MCP status note and the backorder-completion ticket update), not exactly
one. -/
theorem C5_counterexample :
    (tickStep sampleDb [] sampleRecord (fun _ => Except.ok closedDetail)
      allOk allOk 100).notes =
      ["completion_note", "mcp_status", "ticket_update"] ∧
    (tickStep sampleDb [] sampleRecord (fun _ => Except.ok closedDetail)
      allOk allOk 100).notes.length ≠ 1 := by
  refine ⟨rfl, by decide⟩

/-- C5 as amended — a completion observed as a status change to "Closed"
with fulfilled units and an attached ticket posts one completion note plus
one MCP status note, plus one further backorder-completion note when at
least one unit registered successfully: two or three notifications, never
exactly one. -/
theorem C5_amended_completion_note_count (db : OrderDb) (lu : NotifyMap)
    (b : BackorderRecord) (api : Nat → ApiResult) (addOk blockOk : String → Bool)
    (now : Nat) (d d2 d3 : OrderDetail) (tk : String)
    (h0 : api 0 = Except.ok d) (h1 : d.orderStatus = "Closed")
    (hch : b.last_status ≠ some "Closed")
    (h2 : api 1 = Except.ok d2) (h2s : d2.orderStatus = "Closed")
    (h3 : api 2 = Except.ok d3) (h3s : d3.orderStatus = "Closed")
    (hnums : completedNumbers d3 ≠ []) (htk : b.ticket_id = some tk) :
    (tickStep db lu b api addOk blockOk now).notes =
      if ((completedNumbers d3).filter addOk).isEmpty then
        ["completion_note", "mcp_status"]
      else ["completion_note", "mcp_status", "ticket_update"] := by
  have hni : (completedNumbers d3).isEmpty = false := by
    cases hcn : completedNumbers d3 with
    | nil => exact absurd hcn hnums
    | cons a l => rfl
  have hcheck : check_backorder_completion (api 1) = true := by
    simp [check_backorder_completion, h2, h2s]
  simp only [tickStep, h0, h1, if_pos, hcheck, if_true, decide_True,
    Bool.and_true]
  have hchb : (b.last_status = some "Closed" : Bool) = false :=
    decide_eq_false hch
  simp only [hchb, Bool.not_false, if_true, Bool.true_and]
  simp only [process_completed_backorder, h3, h3s, if_pos, hni,
    Bool.false_eq_true, if_false, if_true, htk, Option.isSome_some,
    successful_additions_process_completed_order]
  by_cases he : ((completedNumbers d3).filter addOk).isEmpty <;> simp [he]

theorem C5_amended_completion_note_count_witness :
    (tickStep sampleDb [] sampleRecord (fun _ => Except.ok closedDetail)
      allOk allOk 100).notes = ["completion_note", "mcp_status", "ticket_update"] := by
  have h := C5_amended_completion_note_count sampleDb [] sampleRecord
    (fun _ => Except.ok closedDetail) allOk allOk 100 closedDetail closedDetail
    closedDetail "T1" rfl rfl (by decide) rfl rfl rfl rfl (by decide) rfl
  exact h.trans (by decide)

theorem tickStep_pending_first (db : OrderDb) (lu : NotifyMap)
    (b : BackorderRecord) (api : Nat → ApiResult) (addOk blockOk : String → Bool)
    (now : Nat) (d : OrderDetail) (h0 : api 0 = Except.ok d)
    (h1 : d.orderStatus ≠ "Closed")
    (h2 : is_backorder_completed db b.order_id = false)
    (hl : lookupNotify lu b.order_id = none) :
    tickStep db lu b api addOk blockOk now =
      ⟨db, setNotify lu b.order_id now, ["status_update"], false, []⟩ := by
  simp [tickStep, h0, h1, h2, hl]

theorem tickStep_pending_due (db : OrderDb) (lu : NotifyMap)
    (b : BackorderRecord) (api : Nat → ApiResult) (addOk blockOk : String → Bool)
    (now : Nat) (d : OrderDetail) (l : Nat) (h0 : api 0 = Except.ok d)
    (h1 : d.orderStatus ≠ "Closed")
    (h2 : is_backorder_completed db b.order_id = false)
    (hl : lookupNotify lu b.order_id = some l) (hge : 14400 ≤ now - l) :
    tickStep db lu b api addOk blockOk now =
      ⟨db, setNotify lu b.order_id now, ["status_update"], false, []⟩ := by
  simp [tickStep, h0, h1, h2, hl, hge]

theorem tickStep_pending_wait (db : OrderDb) (lu : NotifyMap)
    (b : BackorderRecord) (api : Nat → ApiResult) (addOk blockOk : String → Bool)
    (now : Nat) (d : OrderDetail) (l : Nat) (h0 : api 0 = Except.ok d)
    (h1 : d.orderStatus ≠ "Closed")
    (h2 : is_backorder_completed db b.order_id = false)
    (hl : lookupNotify lu b.order_id = some l) (hge : ¬(14400 ≤ now - l)) :
    tickStep db lu b api addOk blockOk now = ⟨db, lu, [], false, []⟩ := by
  simp [tickStep, h0, h1, h2, hl, hge]

/-- C7 — the notification cadence: for an order that is pending in the store
and whose remote status is not terminal, the tick posts a status-update note
exactly when the order was never notified (within this process run) or at
least 14400 seconds (4 hours) have passed since its last note; posting
records `now` as the last-notified time, not posting leaves the map and the
store untouched, and a second qualifying tick less than 14400 seconds later
posts nothing. -/
theorem C7_notification_cadence (db : OrderDb) (lu : NotifyMap)
    (b : BackorderRecord) (api api2 : Nat → ApiResult)
    (addOk blockOk : String → Bool) (now now2 : Nat) (d d2 : OrderDetail)
    (h0 : api 0 = Except.ok d) (h1 : d.orderStatus ≠ "Closed")
    (h2 : is_backorder_completed db b.order_id = false)
    (g0 : api2 0 = Except.ok d2) (g1 : d2.orderStatus ≠ "Closed")
    (g2 : now2 - now < 14400) :
    ((tickStep db lu b api addOk blockOk now).notes = ["status_update"] ↔
      (lookupNotify lu b.order_id = none ∨
        ∃ l, lookupNotify lu b.order_id = some l ∧ 14400 ≤ now - l)) ∧
    ((tickStep db lu b api addOk blockOk now).notes = ["status_update"] →
      lookupNotify (tickStep db lu b api addOk blockOk now).lastUpdates
        b.order_id = some now) ∧
    ((tickStep db lu b api addOk blockOk now).notes ≠ ["status_update"] →
      (tickStep db lu b api addOk blockOk now).notes = [] ∧
      (tickStep db lu b api addOk blockOk now).lastUpdates = lu) ∧
    (tickStep db lu b api addOk blockOk now).db = db ∧
    ((tickStep db lu b api addOk blockOk now).notes = ["status_update"] →
      (tickStep db (tickStep db lu b api addOk blockOk now).lastUpdates b
        api2 addOk blockOk now2).notes = []) := by
  have hnot : ¬(14400 ≤ now2 - now) := by omega
  have hsecond : ∀ lu2 : NotifyMap, lookupNotify lu2 b.order_id = some now →
      (tickStep db lu2 b api2 addOk blockOk now2).notes = [] := by
    intro lu2 hlu2
    rw [tickStep_pending_wait db lu2 b api2 addOk blockOk now2 d2 now
      g0 g1 h2 hlu2 hnot]
  cases hl : lookupNotify lu b.order_id with
  | none =>
    rw [tickStep_pending_first db lu b api addOk blockOk now d h0 h1 h2 hl]
    refine ⟨by simp, fun _ => lookupNotify_setNotify_self lu b.order_id now,
      fun hne => absurd rfl hne, rfl, fun _ => ?_⟩
    exact hsecond _ (lookupNotify_setNotify_self lu b.order_id now)
  | some l =>
    by_cases hge : 14400 ≤ now - l
    · rw [tickStep_pending_due db lu b api addOk blockOk now d l h0 h1 h2 hl hge]
      refine ⟨⟨fun _ => Or.inr ⟨l, rfl, hge⟩, fun _ => rfl⟩,
        fun _ => lookupNotify_setNotify_self lu b.order_id now,
        fun hne => absurd rfl hne, rfl, fun _ => ?_⟩
      exact hsecond _ (lookupNotify_setNotify_self lu b.order_id now)
    · rw [tickStep_pending_wait db lu b api addOk blockOk now d l h0 h1 h2 hl hge]
      refine ⟨?_, by simp, fun _ => ⟨rfl, rfl⟩, rfl, by simp⟩
      constructor
      · intro hc
        exact absurd hc (by simp)
      · rintro (hc | ⟨l2, hl2, hge2⟩)
        · exact Option.noConfusion hc
        · cases hl2
          exact absurd hge2 hge

theorem C7_notification_cadence_witness :
    (tickStep sampleDb [] sampleRecord (fun _ => Except.ok pendingDetail)
      allOk allOk 200).notes = ["status_update"] ∧
    (tickStep sampleDb
      (tickStep sampleDb [] sampleRecord (fun _ => Except.ok pendingDetail)
        allOk allOk 200).lastUpdates sampleRecord
      (fun _ => Except.ok pendingDetail) allOk allOk 300).notes = [] := by
  have h := C7_notification_cadence sampleDb [] sampleRecord
    (fun _ => Except.ok pendingDetail) (fun _ => Except.ok pendingDetail)
    allOk allOk 200 300 pendingDetail pendingDetail rfl (by decide) rfl rfl
    (by decide) (by decide)
  have hpost : (tickStep sampleDb [] sampleRecord
      (fun _ => Except.ok pendingDetail) allOk allOk 200).notes =
      ["status_update"] := h.1.mpr (Or.inl rfl)
  exact ⟨hpost, h.2.2.2.2 hpost⟩

/-- C8 — at the failing input (a pending order whose desired completion date
100 has passed the poll time 200, remote status still non-terminal) the tick
does not stop the order: its row stays "pending", it is not removed, and the
only note posted is the routine 4-hour status update; moreover a tick can
only ever leave a stored status unchanged, set it to "completed", or delete
the row — the status "stopped" is never written by any tick. -/
theorem C8_no_stop_after_due_date :
    pendingDetail.desiredDueDate = some 100 ∧ (100 : Nat) < 200 ∧
    statusOf (tickStep sampleDb [] sampleRecord
      (fun _ => Except.ok pendingDetail) allOk allOk 200).db "ORD1" =
      some "pending" ∧
    (tickStep sampleDb [] sampleRecord (fun _ => Except.ok pendingDetail)
      allOk allOk 200).removed = false ∧
    (tickStep sampleDb [] sampleRecord (fun _ => Except.ok pendingDetail)
      allOk allOk 200).notes = ["status_update"] ∧
    (∀ (db : OrderDb) (lu : NotifyMap) (b : BackorderRecord)
      (api : Nat → ApiResult) (addOk blockOk : String → Bool) (now : Nat)
      (oid : String),
      statusOf (tickStep db lu b api addOk blockOk now).db oid =
          statusOf db oid ∨
        statusOf (tickStep db lu b api addOk blockOk now).db oid =
          some "completed" ∨
        statusOf (tickStep db lu b api addOk blockOk now).db oid = none) := by
  exact ⟨rfl, by decide, rfl, rfl, rfl, statusOf_tickStep⟩

/-- C9 counterexample — the claim fails: a tick that finds the remote status
"Closed" deletes the order's row from the `backorders` table
(`remove_completed_backorder` runs DELETE), so the order does not remain in
the store for audit. -/
theorem C9_counterexample :
    lookupOrder sampleDb "ORD1" = some sampleRow ∧
    (tickStep sampleDb [] sampleRecord (fun _ => Except.ok closedDetail)
      allOk allOk 100).removed = true ∧
    lookupOrder (tickStep sampleDb [] sampleRecord
      (fun _ => Except.ok closedDetail) allOk allOk 100).db "ORD1" = none := by
  refine ⟨rfl, rfl, rfl⟩

/-- C9 as amended — once a tick observes the terminal remote status for an
order, it ends tracking by deleting the order's row: after the tick the
store has no row for that order id. -/
theorem C9_amended_terminal_rows_deleted (db : OrderDb) (lu : NotifyMap)
    (b : BackorderRecord) (api : Nat → ApiResult) (addOk blockOk : String → Bool)
    (now : Nat) (d : OrderDetail) (h0 : api 0 = Except.ok d)
    (h1 : d.orderStatus = "Closed") :
    (tickStep db lu b api addOk blockOk now).removed = true ∧
    lookupOrder (tickStep db lu b api addOk blockOk now).db b.order_id =
      none := by
  by_cases h2 : check_backorder_completion (api 1) <;>
    simp [tickStep, h0, h1, h2, remove_completed_backorder,
      lookupOrder_eraseOrder_self]

theorem C9_amended_terminal_rows_deleted_witness :
    (tickStep sampleDb [] sampleRecord (fun _ => Except.ok closedDetail)
      allOk allOk 100).removed = true ∧
    lookupOrder (tickStep sampleDb [] sampleRecord
      (fun _ => Except.ok closedDetail) allOk allOk 100).db "ORD1" = none :=
  C9_amended_terminal_rows_deleted sampleDb [] sampleRecord
    (fun _ => Except.ok closedDetail) allOk allOk 100 closedDetail rfl rfl

end USNumberOrder
